import Mathlib

set_option maxRecDepth 8000
set_option maxHeartbeats 1000000

/-!
Verification development for the browser-side settings editor in
`src/powerdnsadmin/static/custom/js/app-settings-editor.js`.

The editor keeps a flat record of configuration fields as observable cells,
validates them with a declarative rule table, persists them through a single
POST endpoint, and mirrors tab navigation into the location fragment.  The
definitions below are a shallow embedding of that file: JavaScript objects
holding field values become association lists over a scalar `Value` type,
the mutable view-model becomes an explicit `Model` record, network calls
become lists of emitted `AjaxRequest` values, and the jQuery Validation
rule table becomes explicit data interpreted by `checkField`.
-/

/-- Scalar value stored in a settings field: a JavaScript boolean, number or
string, as they occur in the `defaults` table and in server payloads. -/
inductive Value where
  | b : Bool → Value
  | n : Int → Value
  | s : String → Value
deriving DecidableEq

/-- JavaScript truthiness of a field value, as used by conditions such as
`if (self.local_db_enabled())`. -/
def Value.truthy : Value → Bool
  | .b v => v
  | .n v => !(v == 0)
  | .s v => !(v == "")

/-- Strict JavaScript equality against the number literal `1`, as the source
writes `self.ldap_sg_enabled() === 1`.  A boolean `true` or a string is never
strictly equal to the number `1`. -/
def Value.eqOne (v : Value) : Bool := decide (v = Value.n 1)

/-- JavaScript string conversion of a field value, the shape in which the
validator reads the bound form control value. -/
def Value.str : Value → String
  | .b true => "true"
  | .b false => "false"
  | .n v => toString v
  | .s v => v

/-- JSON-like tree for the secondary `payload.settings` structure of a load
response, which the editor stores as a read-only observable tree. -/
inductive Json where
  | null : Json
  | jb : Bool → Json
  | jn : Int → Json
  | js : String → Json
  | arr : List Json → Json
  | obj : List (String × Json) → Json

/-- First-match lookup in an association list keyed by strings; JavaScript
object property read. -/
def lookupA {α : Type} : List (String × α) → String → Option α
  | [], _ => none
  | kv :: rest, k => if kv.1 = k then some kv.2 else lookupA rest k

/-- JavaScript object property assignment: replace the value at an existing
key in place, or append the key at the end (insertion order). -/
def setKey {α : Type} : List (String × α) → String → α → List (String × α)
  | [], k, v => [(k, v)]
  | kv :: rest, k, v => if kv.1 = k then (k, v) :: rest else kv :: setKey rest k v

/-- jQuery `$.extend(base, upd)`: every entry of `upd` is written into `base`
in order, mutating `base`; the merged object is `base` itself. -/
def extend {α : Type} (base upd : List (String × α)) : List (String × α) :=
  upd.foldl (fun acc kv => setKey acc kv.1 kv.2) base

/-- Tab descriptor from the `self.tabs` observable array.  The source stores
the default-child marker under the key `def`, a reserved word in Lean, so the
field is called `isDefault` here; tabs without the key read it as falsy. -/
structure Tab where
  id : String
  name : String
  icon : String
  parent : Option String
  isDefault : Bool
deriving DecidableEq

/-- The thirteen tab descriptors of `self.tabs`, in source order. -/
def tabsList : List Tab := [
  ⟨"authentication", "Authentication", "fa fa-lock", none, false⟩,
  ⟨"mail", "Mail", "fa fa-envelope", none, false⟩,
  ⟨"powerdns", "PowerDNS", "fa fa-server", none, false⟩,
  ⟨"security", "Security", "fa fa-shield-alt", none, false⟩,
  ⟨"ui", "UI", "fa fa-desktop", none, false⟩,
  ⟨"zone-editor", "Zone Editor", "fa fa-edit", none, false⟩,
  ⟨"local", "Local", "fa fa-user-lock", some "authentication", true⟩,
  ⟨"ldap", "LDAP", "fa fa-database", some "authentication", false⟩,
  ⟨"azure", "Azure OAuth", "fa-brands fa-microsoft", some "authentication", false⟩,
  ⟨"github", "GitHub OAuth", "fa-brands fa-github", some "authentication", false⟩,
  ⟨"google", "Google OAuth", "fa-brands fa-google", some "authentication", false⟩,
  ⟨"oidc", "OpenID Connect", "fa-brands fa-openid", some "authentication", false⟩,
  ⟨"saml", "SAML", "fa fa-network-wired", some "authentication", false⟩]

/-- The static `defaults` table of the model, in source order. -/
def defaultsList : List (String × Value) := [
  ("local_db_enabled", .b true),
  ("signup_enabled", .b true),
  ("pwd_enforce_characters", .b false),
  ("pwd_min_len", .n 10),
  ("pwd_min_lowercase", .n 3),
  ("pwd_min_uppercase", .n 2),
  ("pwd_min_digits", .n 2),
  ("pwd_min_special", .n 1),
  ("pwd_enforce_complexity", .b false),
  ("pwd_min_complexity", .n 11),
  ("ldap_enabled", .b false),
  ("ldap_type", .s "ldap"),
  ("ldap_uri", .s ""),
  ("ldap_base_dn", .s ""),
  ("ldap_admin_username", .s ""),
  ("ldap_admin_password", .s ""),
  ("ldap_domain", .s ""),
  ("ldap_filter_basic", .s ""),
  ("ldap_filter_username", .s ""),
  ("ldap_filter_group", .s ""),
  ("ldap_filter_groupname", .s ""),
  ("ldap_sg_enabled", .b false),
  ("ldap_admin_group", .s ""),
  ("ldap_operator_group", .s ""),
  ("ldap_user_group", .s ""),
  ("autoprovisioning", .b false),
  ("autoprovisioning_attribute", .s ""),
  ("urn_value", .s ""),
  ("purge", .n 0),
  ("google_oauth_enabled", .b false),
  ("google_oauth_client_id", .s ""),
  ("google_oauth_client_secret", .s ""),
  ("google_oauth_scope", .s ""),
  ("google_base_url", .s ""),
  ("google_oauth_auto_configure", .b true),
  ("google_oauth_metadata_url", .s ""),
  ("google_token_url", .s ""),
  ("google_authorize_url", .s ""),
  ("github_oauth_enabled", .b false),
  ("github_oauth_key", .s ""),
  ("github_oauth_secret", .s ""),
  ("github_oauth_scope", .s ""),
  ("github_oauth_api_url", .s ""),
  ("github_oauth_auto_configure", .b false),
  ("github_oauth_metadata_url", .s ""),
  ("github_oauth_token_url", .s ""),
  ("github_oauth_authorize_url", .s ""),
  ("azure_oauth_enabled", .b false),
  ("azure_oauth_key", .s ""),
  ("azure_oauth_secret", .s ""),
  ("azure_oauth_scope", .s ""),
  ("azure_oauth_api_url", .s ""),
  ("azure_oauth_auto_configure", .b true),
  ("azure_oauth_metadata_url", .s ""),
  ("azure_oauth_token_url", .s ""),
  ("azure_oauth_authorize_url", .s ""),
  ("azure_sg_enabled", .b false),
  ("azure_admin_group", .s ""),
  ("azure_operator_group", .s ""),
  ("azure_user_group", .s ""),
  ("azure_group_accounts_enabled", .b false),
  ("azure_group_accounts_name", .s ""),
  ("azure_group_accounts_name_re", .s ""),
  ("azure_group_accounts_description", .s ""),
  ("azure_group_accounts_description_re", .s ""),
  ("oidc_oauth_enabled", .b false),
  ("oidc_oauth_key", .s ""),
  ("oidc_oauth_secret", .s ""),
  ("oidc_oauth_scope", .s ""),
  ("oidc_oauth_api_url", .s ""),
  ("oidc_oauth_auto_configure", .b true),
  ("oidc_oauth_metadata_url", .s ""),
  ("oidc_oauth_token_url", .s ""),
  ("oidc_oauth_authorize_url", .s ""),
  ("oidc_oauth_logout_url", .s ""),
  ("oidc_oauth_username", .s ""),
  ("oidc_oauth_email", .s ""),
  ("oidc_oauth_firstname", .s ""),
  ("oidc_oauth_last_name", .s ""),
  ("oidc_oauth_account_name_property", .s ""),
  ("oidc_oauth_account_description_property", .s "")]

/-- One POST issued through `$.ajax`.  `commit` and `data` are present only
for save requests; a load request sends the CSRF token alone. -/
structure AjaxRequest where
  url : String
  csrf_token : String
  commit : Option Nat
  data : Option String

/-- State of `SettingsEditorModel`: the settings record (the dynamically
created per-field observables), the shared mutable `defaults` table, the
secondary settings tree, the transient UI flags and messages, and the tab
navigation state.  `hash` holds the location fragment without the leading
`#` character; the constructor parameters `api_url` and `csrf_token` are
carried as immutable fields. -/
structure Model where
  api_url : String
  csrf_token : String
  fields : List (String × Value)
  defaultsTable : List (String × Value)
  settings : Json
  loading : Bool
  saving : Bool
  saved : Bool
  save_failed : Bool
  messages : List String
  messages_class : String
  tab_active : String
  tab_default : String
  tabs : List Tab
  hash : String

/-- The freshly constructed model, before `init` runs: empty record, the
static defaults table, all flags false, `messages_class` of `info`, and the
location fragment as the page currently has it. -/
def mkModel (api_url csrf_token hash0 : String) : Model :=
  { api_url := api_url
    csrf_token := csrf_token
    fields := []
    defaultsTable := defaultsList
    settings := Json.obj []
    loading := false
    saving := false
    saved := false
    save_failed := false
    messages := []
    messages_class := "info"
    tab_active := ""
    tab_default := "authentication"
    tabs := tabsList
    hash := hash0 }

/-- Reading a field observable; an unbound field reads as the empty string,
the value an unfilled form control would produce. -/
def getF (m : Model) (k : String) : Value := (lookupA m.fields k).getD (Value.s "")

/-- `self.update(instance)`: `$.extend(defaults, instance)` merges the
instance into the shared `defaults` table in place, then every entry of the
merged table is written into the corresponding field observable, creating it
when absent. -/
def Model.update (m : Model) (inst : List (String × Value)) : Model :=
  let d := extend m.defaultsTable inst
  { m with defaultsTable := d, fields := extend m.fields d }

/-- Validation predicate `local_enabled`: returns the raw value of the
`local_db_enabled` observable; the validator consumes it by truthiness. -/
def local_enabled (m : Model) : Bool := (getF m "local_db_enabled").truthy

/-- Validation predicate `ldap_enabled`: truthiness of the LDAP toggle. -/
def ldap_enabled (m : Model) : Bool := (getF m "ldap_enabled").truthy

/-- Validation predicate `google_oauth_enabled`. -/
def google_oauth_enabled (m : Model) : Bool := (getF m "google_oauth_enabled").truthy

/-- Validation predicate `github_oauth_enabled`. -/
def github_oauth_enabled (m : Model) : Bool := (getF m "github_oauth_enabled").truthy

/-- Validation predicate `azure_oauth_enabled`. -/
def azure_oauth_enabled (m : Model) : Bool := (getF m "azure_oauth_enabled").truthy

/-- Validation predicate `oidc_oauth_enabled`. -/
def oidc_oauth_enabled (m : Model) : Bool := (getF m "oidc_oauth_enabled").truthy

/-- Validation predicate `enforce_characters`: both flags strictly `=== 1`. -/
def enforce_characters (m : Model) : Bool :=
  (getF m "local_db_enabled").eqOne && (getF m "pwd_enforce_characters").eqOne

/-- Validation predicate `enforce_complexity`: both flags strictly `=== 1`. -/
def enforce_complexity (m : Model) : Bool :=
  (getF m "local_db_enabled").eqOne && (getF m "pwd_enforce_complexity").eqOne

/-- Validation predicate `ldap_type_openldap`: LDAP enabled and type `ldap`. -/
def ldap_type_openldap (m : Model) : Bool :=
  (getF m "ldap_enabled").truthy && decide (getF m "ldap_type" = Value.s "ldap")

/-- Validation predicate `ldap_type_ad`: LDAP enabled and type `ad`. -/
def ldap_type_ad (m : Model) : Bool :=
  (getF m "ldap_enabled").truthy && decide (getF m "ldap_type" = Value.s "ad")

/-- Validation predicate `ldap_sg_enabled`: both flags strictly `=== 1`. -/
def ldap_sg_enabled (m : Model) : Bool :=
  (getF m "ldap_enabled").eqOne && (getF m "ldap_sg_enabled").eqOne

/-- Validation predicate `ldap_ap_enabled`: both flags strictly `=== 1`. -/
def ldap_ap_enabled (m : Model) : Bool :=
  (getF m "ldap_enabled").eqOne && (getF m "autoprovisioning").eqOne

/-- Validation predicate `azure_gs_enabled`: both flags strictly `=== 1`. -/
def azure_gs_enabled (m : Model) : Bool :=
  (getF m "azure_oauth_enabled").eqOne && (getF m "azure_sg_enabled").eqOne

/-- Validation predicate `azure_gas_enabled`: both toggles truthy. -/
def azure_gas_enabled (m : Model) : Bool :=
  (getF m "azure_oauth_enabled").truthy && (getF m "azure_group_accounts_enabled").truthy

/-- Validation predicate `google_oauth_auto_configure_enabled`. -/
def google_oauth_auto_configure_enabled (m : Model) : Bool :=
  (getF m "google_oauth_enabled").truthy && (getF m "google_oauth_auto_configure").truthy

/-- Validation predicate `google_oauth_auto_configure_disabled`. -/
def google_oauth_auto_configure_disabled (m : Model) : Bool :=
  (getF m "google_oauth_enabled").truthy && !(getF m "google_oauth_auto_configure").truthy

/-- Validation predicate `github_oauth_auto_configure_enabled`. -/
def github_oauth_auto_configure_enabled (m : Model) : Bool :=
  (getF m "github_oauth_enabled").truthy && (getF m "github_oauth_auto_configure").truthy

/-- Validation predicate `github_oauth_auto_configure_disabled`. -/
def github_oauth_auto_configure_disabled (m : Model) : Bool :=
  (getF m "github_oauth_enabled").truthy && !(getF m "github_oauth_auto_configure").truthy

/-- Validation predicate `azure_oauth_auto_configure_enabled`. -/
def azure_oauth_auto_configure_enabled (m : Model) : Bool :=
  (getF m "azure_oauth_enabled").truthy && (getF m "azure_oauth_auto_configure").truthy

/-- Validation predicate `azure_oauth_auto_configure_disabled`. -/
def azure_oauth_auto_configure_disabled (m : Model) : Bool :=
  (getF m "azure_oauth_enabled").truthy && !(getF m "azure_oauth_auto_configure").truthy

/-- Validation predicate `oidc_oauth_auto_configure_enabled`. -/
def oidc_oauth_auto_configure_enabled (m : Model) : Bool :=
  (getF m "oidc_oauth_enabled").truthy && (getF m "oidc_oauth_auto_configure").truthy

/-- Validation predicate `oidc_oauth_auto_configure_disabled`. -/
def oidc_oauth_auto_configure_disabled (m : Model) : Bool :=
  (getF m "oidc_oauth_enabled").truthy && !(getF m "oidc_oauth_auto_configure").truthy

/-- Custom validator method `auth_enabled`: counts the provider toggles that
are truthy and succeeds when the count is positive, exactly as the chain of
`if` statements in the source increments `enabled`. -/
def auth_enabled (m : Model) : Bool :=
  let enabled : Nat := 0
  let enabled := if (getF m "local_db_enabled").truthy then enabled + 1 else enabled
  let enabled := if (getF m "ldap_enabled").truthy then enabled + 1 else enabled
  let enabled := if (getF m "google_oauth_enabled").truthy then enabled + 1 else enabled
  let enabled := if (getF m "github_oauth_enabled").truthy then enabled + 1 else enabled
  let enabled := if (getF m "azure_oauth_enabled").truthy then enabled + 1 else enabled
  let enabled := if (getF m "oidc_oauth_enabled").truthy then enabled + 1 else enabled
  decide (enabled > 0)

/-- Custom validator method `ldap_exclusive`: counts how many of the two
flags are strictly `=== 1` and succeeds when fewer than two are. -/
def ldap_exclusive (m : Model) : Bool :=
  let enabled : Nat := 0
  let enabled := if (getF m "ldap_sg_enabled").eqOne then enabled + 1 else enabled
  let enabled := if (getF m "autoprovisioning").eqOne then enabled + 1 else enabled
  decide (enabled < 2)

/-- Character class `[0-9a-f]` under the case-insensitive flag. -/
def isHexChar (c : Char) : Bool := c.isDigit || (('a' ≤ c.toLower) && (c.toLower ≤ 'f'))

/-- Whether character `c` may stand at position `i` of the 36-character UUID
body `[0-9a-f]{8}-[0-9a-f]{4}-[1-5][0-9a-f]{3}-[89ab][0-9a-f]{3}-[0-9a-f]{12}`
of `uuidRegExp`, case-insensitively. -/
def uuidSlotOk (i : Nat) (c : Char) : Bool :=
  if i == 8 || i == 13 || i == 18 || i == 23 then c == '-'
  else if i == 14 then ('1' ≤ c) && (c ≤ '5')
  else if i == 19 then
    (c.toLower == '8') || (c.toLower == '9') || (c.toLower == 'a') || (c.toLower == 'b')
  else isHexChar c

/-- First alternative of `uuidRegExp`: the `^` anchor binds only to it, so it
matches exactly when the string starts with a 36-character UUID body. -/
def uuidLeading (s : String) : Bool :=
  let cs := s.toList
  decide (cs.length ≥ 36) && (cs.take 36).enum.all (fun p => uuidSlotOk p.1 p.2)

/-- Second alternative `[0-9]+$` of `uuidRegExp`: the `$` anchor binds only
to it, so it matches exactly when the final character is a decimal digit. -/
def lastCharDigit (s : String) : Bool :=
  match s.toList.getLast? with
  | some c => c.isDigit
  | none => false

/-- `uuidRegExp.test(value)` for the pattern
`/^(uuid-body)|[0-9]+$/i`: because the alternation binds loosely, the test
succeeds when the string starts with a UUID body or ends with a digit. -/
def uuidRegExpTest (s : String) : Bool := uuidLeading s || lastCharDigit s

/-- Custom validator method `uuid`: applies `uuidRegExp.test` to the value;
the method never consults its parameter or the optional-field check. -/
def uuid (value : String) : Bool := uuidRegExpTest value

/-- Parameter attached to one named constraint in the rule table: a literal
boolean, a number, or a dependency predicate over the model. -/
inductive RuleParam where
  | pb : Bool → RuleParam
  | pnum : Int → RuleParam
  | pfn : (Model → Bool) → RuleParam

/-- Value of one entry of the `rules` table, as written in the source: a
single method name as a string, a bare predicate function, or an object of
named constraints. -/
inductive RuleVal where
  | str : String → RuleVal
  | fn : (Model → Bool) → RuleVal
  | obj : List (String × RuleParam) → RuleVal

/-- jQuery Validation `normalizeRule` combined with the rule merge: a string
becomes that method with parameter `true`; a bare function contributes no
constraints, because `$.extend` copies no enumerable properties from a
function; an object contributes its own entries. -/
def normalizeRule : RuleVal → List (String × RuleParam)
  | .str s => [(s, .pb true)]
  | .fn _ => []
  | .obj cs => cs

/-- A rule parameter after `normalizeRules` has evaluated function-valued
parameters against the current model. -/
inductive EvalParam where
  | pb : Bool → EvalParam
  | pnum : Int → EvalParam

/-- Parameter evaluation step of `normalizeRules`. -/
def evalParam (m : Model) : RuleParam → EvalParam
  | .pb v => .pb v
  | .pnum v => .pnum v
  | .pfn p => .pb (p m)

/-- JavaScript `Number(value)` restricted to the digit strings this form
produces; a string that is not a plain digit run reads as `NaN`, which every
comparison rejects, so it is modelled as `none`. -/
def jsToNumber (s : String) : Option Int :=
  if !s.toList.isEmpty && s.toList.all Char.isDigit then
    some ((s.toList.foldl (fun a c => a * 10 + (c.toNat - 48)) 0 : Nat) : Int)
  else none

/-- Well-formedness test a URL field must pass.  The library checks the value
against an RFC-compliant regular expression; it is modelled here as accepting
http, https and ftp URLs with a nonempty remainder, which is all the form
ever needs to distinguish.  Empty values are handled by the caller. -/
def urlOk (s : String) : Bool :=
  ("http://".toList.isPrefixOf s.toList && decide (s.length > 7)) ||
  ("https://".toList.isPrefixOf s.toList && decide (s.length > 8)) ||
  ("ftp://".toList.isPrefixOf s.toList && decide (s.length > 6))

/-- One jQuery Validation method applied to the string value of a field.
Built-in methods other than `required` pass on an empty value (the
`optional` check); the custom methods `uuid`, `ldap_exclusive` and
`auth_enabled` registered with `addMethod` never perform that check, and
`uuid` ignores its parameter, so an evaluated-to-false dependency still
leaves the method running. -/
def applyRule (m : Model) (value : String) (method : String) (p : RuleParam) : Bool :=
  let param := evalParam m p
  if method == "required" then
    match param with
    | .pb dep => if dep then !value.toList.isEmpty else true
    | .pnum _ => !value.toList.isEmpty
  else if method == "minlength" then
    match param with
    | .pnum len => value.toList.isEmpty || decide ((value.length : Int) ≥ len)
    | .pb _ => true
  else if method == "maxlength" then
    match param with
    | .pnum len => value.toList.isEmpty || decide ((value.length : Int) ≤ len)
    | .pb _ => true
  else if method == "digits" then
    value.toList.isEmpty || value.toList.all Char.isDigit
  else if method == "min" then
    match param with
    | .pnum bound =>
      value.toList.isEmpty || (match jsToNumber value with
        | some k => decide (k ≥ bound)
        | none => false)
    | .pb _ => true
  else if method == "max" then
    match param with
    | .pnum bound =>
      value.toList.isEmpty || (match jsToNumber value with
        | some k => decide (k ≤ bound)
        | none => false)
    | .pb _ => true
  else if method == "url" then
    value.toList.isEmpty || urlOk value
  else if method == "uuid" then
    uuid value
  else if method == "ldap_exclusive" then
    ldap_exclusive m
  else if method == "auth_enabled" then
    auth_enabled m
  else true

/-- The static `rules` table handed to `target.validate`, in source order. -/
def staticRules : List (String × RuleVal) := [
  ("local_db_enabled", .str "auth_enabled"),
  ("ldap_enabled", .str "auth_enabled"),
  ("google_oauth_enabled", .str "auth_enabled"),
  ("github_oauth_enabled", .str "auth_enabled"),
  ("azure_oauth_enabled", .str "auth_enabled"),
  ("oidc_oauth_enabled", .str "auth_enabled"),
  ("pwd_min_len", .obj [("required", .pfn enforce_characters), ("digits", .pb true),
    ("min", .pnum 1), ("max", .pnum 64)]),
  ("pwd_min_lowercase", .obj [("required", .pfn enforce_characters), ("digits", .pb true),
    ("min", .pnum 0), ("max", .pnum 64)]),
  ("pwd_min_uppercase", .obj [("required", .pfn enforce_characters), ("digits", .pb true),
    ("min", .pnum 0), ("max", .pnum 64)]),
  ("pwd_min_digits", .obj [("required", .pfn enforce_characters), ("digits", .pb true),
    ("min", .pnum 0), ("max", .pnum 64)]),
  ("pwd_min_special", .obj [("required", .pfn enforce_characters), ("digits", .pb true),
    ("min", .pnum 0), ("max", .pnum 64)]),
  ("pwd_min_complexity", .obj [("required", .pfn enforce_complexity), ("digits", .pb true),
    ("min", .pnum 1), ("max", .pnum 1000)]),
  ("ldap_type", .fn ldap_enabled),
  ("ldap_uri", .obj [("required", .pfn ldap_enabled), ("minlength", .pnum 11),
    ("maxlength", .pnum 255)]),
  ("ldap_base_dn", .obj [("required", .pfn ldap_enabled), ("minlength", .pnum 4),
    ("maxlength", .pnum 255)]),
  ("ldap_admin_username", .obj [("required", .pfn ldap_type_openldap), ("minlength", .pnum 4),
    ("maxlength", .pnum 255)]),
  ("ldap_admin_password", .obj [("required", .pfn ldap_type_openldap), ("minlength", .pnum 1),
    ("maxlength", .pnum 255)]),
  ("ldap_domain", .obj [("required", .pfn ldap_type_ad), ("minlength", .pnum 1),
    ("maxlength", .pnum 255)]),
  ("ldap_filter_basic", .obj [("required", .pfn ldap_enabled), ("minlength", .pnum 3),
    ("maxlength", .pnum 1000)]),
  ("ldap_filter_username", .obj [("required", .pfn ldap_enabled), ("minlength", .pnum 1),
    ("maxlength", .pnum 100)]),
  ("ldap_filter_group", .obj [("required", .pfn ldap_type_openldap), ("minlength", .pnum 3),
    ("maxlength", .pnum 100)]),
  ("ldap_filter_groupname", .obj [("required", .pfn ldap_type_openldap), ("minlength", .pnum 1),
    ("maxlength", .pnum 100)]),
  ("ldap_sg_enabled", .obj [("required", .pfn ldap_enabled), ("ldap_exclusive", .pb true)]),
  ("ldap_admin_group", .obj [("required", .pfn ldap_sg_enabled), ("minlength", .pnum 3),
    ("maxlength", .pnum 100)]),
  ("ldap_operator_group", .obj [("required", .pfn ldap_sg_enabled), ("minlength", .pnum 3),
    ("maxlength", .pnum 100)]),
  ("ldap_user_group", .obj [("required", .pfn ldap_sg_enabled), ("minlength", .pnum 3),
    ("maxlength", .pnum 100)]),
  ("autoprovisioning", .obj [("required", .pfn ldap_enabled), ("ldap_exclusive", .pb true)]),
  ("autoprovisioning_attribute", .obj [("required", .pfn ldap_ap_enabled),
    ("minlength", .pnum 1), ("maxlength", .pnum 100)]),
  ("urn_value", .obj [("required", .pfn ldap_ap_enabled), ("minlength", .pnum 1),
    ("maxlength", .pnum 100)]),
  ("purge", .fn ldap_enabled),
  ("google_oauth_client_id", .obj [("required", .pfn google_oauth_enabled),
    ("minlength", .pnum 1), ("maxlength", .pnum 255)]),
  ("google_oauth_client_secret", .obj [("required", .pfn google_oauth_enabled),
    ("minlength", .pnum 1), ("maxlength", .pnum 255)]),
  ("google_oauth_scope", .obj [("required", .pfn google_oauth_enabled),
    ("minlength", .pnum 1), ("maxlength", .pnum 255)]),
  ("google_base_url", .obj [("required", .pfn google_oauth_enabled),
    ("minlength", .pnum 1), ("maxlength", .pnum 255), ("url", .pb true)]),
  ("google_oauth_metadata_url", .obj [("required", .pfn google_oauth_auto_configure_enabled),
    ("minlength", .pnum 1), ("maxlength", .pnum 255), ("url", .pb true)]),
  ("google_token_url", .obj [("required", .pfn google_oauth_auto_configure_disabled),
    ("minlength", .pnum 1), ("maxlength", .pnum 255), ("url", .pb true)]),
  ("google_authorize_url", .obj [("required", .pfn google_oauth_auto_configure_disabled),
    ("minlength", .pnum 1), ("maxlength", .pnum 255), ("url", .pb true)]),
  ("github_oauth_key", .obj [("required", .pfn github_oauth_enabled),
    ("minlength", .pnum 1), ("maxlength", .pnum 255)]),
  ("github_oauth_secret", .obj [("required", .pfn github_oauth_enabled),
    ("minlength", .pnum 1), ("maxlength", .pnum 255)]),
  ("github_oauth_scope", .obj [("required", .pfn github_oauth_enabled),
    ("minlength", .pnum 1), ("maxlength", .pnum 255)]),
  ("github_oauth_api_url", .obj [("required", .pfn github_oauth_enabled),
    ("minlength", .pnum 1), ("maxlength", .pnum 255), ("url", .pb true)]),
  ("github_oauth_metadata_url", .obj [("required", .pfn github_oauth_auto_configure_enabled),
    ("minlength", .pnum 1), ("maxlength", .pnum 255), ("url", .pb true)]),
  ("github_oauth_token_url", .obj [("required", .pfn github_oauth_auto_configure_disabled),
    ("minlength", .pnum 1), ("maxlength", .pnum 255), ("url", .pb true)]),
  ("github_oauth_authorize_url", .obj [("required", .pfn github_oauth_auto_configure_disabled),
    ("minlength", .pnum 1), ("maxlength", .pnum 255), ("url", .pb true)]),
  ("azure_oauth_key", .obj [("required", .pfn azure_oauth_enabled),
    ("minlength", .pnum 1), ("maxlength", .pnum 255), ("uuid", .pb true)]),
  ("azure_oauth_secret", .obj [("required", .pfn azure_oauth_enabled),
    ("minlength", .pnum 1), ("maxlength", .pnum 255)]),
  ("azure_oauth_scope", .obj [("required", .pfn azure_oauth_enabled),
    ("minlength", .pnum 1), ("maxlength", .pnum 255)]),
  ("azure_oauth_api_url", .obj [("required", .pfn azure_oauth_enabled),
    ("minlength", .pnum 1), ("maxlength", .pnum 255), ("url", .pb true)]),
  ("azure_oauth_metadata_url", .obj [("required", .pfn azure_oauth_auto_configure_enabled),
    ("minlength", .pnum 1), ("maxlength", .pnum 255), ("url", .pb true)]),
  ("azure_oauth_token_url", .obj [("required", .pfn azure_oauth_auto_configure_disabled),
    ("minlength", .pnum 1), ("maxlength", .pnum 255), ("url", .pb true)]),
  ("azure_oauth_authorize_url", .obj [("required", .pfn azure_oauth_auto_configure_disabled),
    ("minlength", .pnum 1), ("maxlength", .pnum 255), ("url", .pb true)]),
  ("azure_sg_enabled", .fn azure_oauth_enabled),
  ("azure_admin_group", .obj [("uuid", .pfn azure_gs_enabled)]),
  ("azure_operator_group", .obj [("uuid", .pfn azure_gs_enabled)]),
  ("azure_user_group", .obj [("uuid", .pfn azure_gs_enabled)]),
  ("azure_group_accounts_enabled", .fn azure_oauth_enabled),
  ("azure_group_accounts_name", .obj [("required", .pfn azure_gas_enabled),
    ("minlength", .pnum 1), ("maxlength", .pnum 255)]),
  ("azure_group_accounts_name_re", .obj [("required", .pfn azure_gas_enabled),
    ("minlength", .pnum 1), ("maxlength", .pnum 255)]),
  ("azure_group_accounts_description", .obj [("required", .pfn azure_gas_enabled),
    ("minlength", .pnum 1), ("maxlength", .pnum 255)]),
  ("azure_group_accounts_description_re", .obj [("required", .pfn azure_gas_enabled),
    ("minlength", .pnum 1), ("maxlength", .pnum 255)]),
  ("oidc_oauth_key", .obj [("required", .pfn oidc_oauth_enabled),
    ("minlength", .pnum 1), ("maxlength", .pnum 255)]),
  ("oidc_oauth_secret", .obj [("required", .pfn oidc_oauth_enabled),
    ("minlength", .pnum 1), ("maxlength", .pnum 255)]),
  ("oidc_oauth_scope", .obj [("required", .pfn oidc_oauth_enabled),
    ("minlength", .pnum 1), ("maxlength", .pnum 255)]),
  ("oidc_oauth_api_url", .obj [("required", .pfn oidc_oauth_enabled),
    ("minlength", .pnum 1), ("maxlength", .pnum 255), ("url", .pb true)]),
  ("oidc_oauth_metadata_url", .obj [("required", .pfn oidc_oauth_auto_configure_enabled),
    ("minlength", .pnum 1), ("maxlength", .pnum 255), ("url", .pb true)]),
  ("oidc_oauth_token_url", .obj [("required", .pfn oidc_oauth_auto_configure_disabled),
    ("minlength", .pnum 1), ("maxlength", .pnum 255), ("url", .pb true)]),
  ("oidc_oauth_authorize_url", .obj [("required", .pfn oidc_oauth_auto_configure_disabled),
    ("minlength", .pnum 1), ("maxlength", .pnum 255), ("url", .pb true)]),
  ("oidc_oauth_logout_url", .obj [("required", .pfn oidc_oauth_enabled),
    ("minlength", .pnum 1), ("maxlength", .pnum 255), ("url", .pb true)]),
  ("oidc_oauth_username", .obj [("required", .pfn oidc_oauth_enabled),
    ("minlength", .pnum 1), ("maxlength", .pnum 255)]),
  ("oidc_oauth_email", .obj [("required", .pfn oidc_oauth_enabled),
    ("minlength", .pnum 1), ("maxlength", .pnum 255)]),
  ("oidc_oauth_firstname", .obj [("minlength", .pnum 0), ("maxlength", .pnum 255)]),
  ("oidc_oauth_last_name", .obj [("minlength", .pnum 0), ("maxlength", .pnum 255)]),
  ("oidc_oauth_account_name_property", .obj [("minlength", .pnum 0), ("maxlength", .pnum 255)]),
  ("oidc_oauth_account_description_property", .obj [("minlength", .pnum 0),
    ("maxlength", .pnum 255)])]

/-- Validation of the element bound to field `name` against a rule entry:
every normalized constraint must pass on the string value of the field. -/
def checkField (m : Model) (name : String) (rv : RuleVal) : Bool :=
  let value := (getF m name).str
  (normalizeRule rv).all (fun c => applyRule m value c.1 c.2)

/-- `target.valid()`: full-form validation, true when every field of the
rule table passes all of its constraints against the current model. -/
def Model.valid (m : Model) : Bool :=
  staticRules.all (fun e => checkField m e.1 e.2)

/-- Escape of the two JSON-significant characters when a string value is
serialized. -/
def jsonEscape (s : String) : String :=
  s.toList.foldl (fun acc c =>
    acc ++ (if c = '"' then "\\\"" else if c = '\\' then "\\\\" else c.toString)) ""

/-- JSON rendering of one scalar field value. -/
def Value.toJsonString : Value → String
  | .b true => "true"
  | .b false => "false"
  | .n v => toString v
  | .s v => "\"" ++ jsonEscape v ++ "\""

/-- JSON rendering of the settings record, keys in insertion order. -/
def recordToJson (l : List (String × Value)) : String :=
  "\x7b" ++
    String.intercalate ","
      (l.map (fun kv => "\"" ++ jsonEscape kv.1 ++ "\":" ++ kv.2.toJsonString)) ++
  "\x7d"

/-- `ko.toJSON(self)`: serializes the view model with every observable
unwrapped; modelled as the JSON serialization of the settings record the
view model contains (the transient flags add no settings data). -/
def koToJSON (m : Model) : String := recordToJson m.fields

/-- The save request body `\x7b_csrf_token, commit: 1, data: ko.toJSON(self)\x7d`. -/
def saveRequest (m : Model) : AjaxRequest :=
  { url := m.api_url, csrf_token := m.csrf_token, commit := some 1,
    data := some (koToJSON m) }

/-- `self.save()`: refuses with `false` and issues nothing when
`target.valid()` fails; otherwise raises the saving flag and issues exactly
one POST carrying the CSRF token, `commit: 1` and the serialized record.
The JavaScript function falls off the end on the success path, so the
returned value is `none` there. -/
def Model.save (m : Model) : Option Bool × List AjaxRequest × Model :=
  if !m.valid then (some false, [], m)
  else (none, [saveRequest m], { m with saving := true })

/-- `self.load()`: raises the loading flag and issues one POST carrying only
the CSRF token. -/
def Model.load (m : Model) : List AjaxRequest × Model :=
  ([{ url := m.api_url, csrf_token := m.csrf_token, commit := none, data := none }],
   { m with loading := true })

/-- Payload of a load response. -/
structure LoadPayload where
  legacy : List (String × Value)
  settings : Json

/-- A load response: `status`, `messages` and the payload. -/
structure LoadResult where
  status : Int
  messages : List String
  payload : LoadPayload

/-- A save response: `status`, `messages` and the echoed record data. -/
structure SaveResult where
  status : Int
  messages : List String
  data : List (String × Value)

mutual

/-- `self.observe(value)`: wraps every leaf of the response tree in an
observable; at the level of stored values the tree is unchanged. -/
def observe : Json → Json
  | .null => .null
  | .jb v => .jb v
  | .jn v => .jn v
  | .js v => .js v
  | .arr xs => .arr (observeList xs)
  | .obj fs => .obj (observeObj fs)

/-- Array branch of `observe`. -/
def observeList : List Json → List Json
  | [] => []
  | x :: xs => observe x :: observeList xs

/-- Object branch of `observe`. -/
def observeObj : List (String × Json) → List (String × Json)
  | [] => []
  | kv :: rest => (kv.1, observe kv.2) :: observeObj rest

end

/-- `self.onDataLoaded(result)`: a zero status stores the messages under the
danger class and clears the loading flag without touching any field; any
other status observes the settings tree (the in-loop field write is
commented out in the source), merges the legacy payload through `update`,
and stores the messages under the info class. -/
def Model.onDataLoaded (m : Model) (r : LoadResult) : Model :=
  if r.status = 0 then
    { m with messages_class := "danger", messages := r.messages, loading := false }
  else
    let settings := observe r.payload.settings
    { m.update r.payload.legacy with
        settings := settings
        messages_class := "info"
        messages := r.messages
        loading := false }

/-- `self.onDataSaved(result)`: a zero status sets `save_failed` and clears
`saved`; any other status merges the echoed data through `update`, sets
`saved` and clears `save_failed`.  Both branches store the messages and
clear the saving flag. -/
def Model.onDataSaved (m : Model) (r : SaveResult) : Model :=
  if r.status = 0 then
    { m with saved := false, save_failed := true, messages_class := "danger",
             messages := r.messages, saving := false }
  else
    { m.update r.data with
        saved := true
        save_failed := false
        messages_class := "info"
        messages := r.messages
        saving := false }

/-- The default-child expansion loop of `activateTab`: when the requested
path has no slash, each tab whose `parent` equals the accumulated path and
whose default marker is set appends `/` and its id to the path.  The loop
compares against the mutated path variable, so the fold accumulates. -/
def expandTab (tabs : List Tab) (tab : String) : String :=
  if tab.toList.contains '/' then tab
  else tabs.foldl
    (fun acc item =>
      if item.parent = some acc ∧ item.isDefault = true then acc ++ "/" ++ item.id
      else acc)
    tab

/-- `self.activateTab(tab)`: expands a bare parent path to its default child,
stores the result as the active path and writes it to the location
fragment. -/
def Model.activateTab (m : Model) (tab : String) : Model :=
  let t := expandTab m.tabs tab
  { m with tab_active := t, hash := t }

/-- `self.activateDefaultTab()`. -/
def Model.activateDefaultTab (m : Model) : Model := m.activateTab m.tab_default

/-- `self.getHash()`: the fragment without its leading `#`, which is how the
model stores it. -/
def Model.getHash (m : Model) : String := m.hash

/-- `self.hasHash()`: `window.location.hash.length > 1` counts the leading
`#`, so a nonempty stored fragment. -/
def Model.hasHash (m : Model) : Bool := decide (m.hash.length > 0)

/-- JavaScript `String.prototype.trim`: strip leading and trailing
whitespace. -/
def jsTrim (s : String) : String :=
  ⟨((s.toList.dropWhile Char.isWhitespace).reverse.dropWhile Char.isWhitespace).reverse⟩

/-- `self.onHashChange(event)`: re-activate from the freshly trimmed
fragment, or the default tab when the fragment is empty. -/
def Model.onHashChange (m : Model) : Model :=
  let h := jsTrim m.hash
  if h.length > 0 then m.activateTab h else m.activateDefaultTab

/-- The `onElementChanged` listener runs `target.valid()`, which recomputes
error markup but writes no model state, so the model is returned as is. -/
def Model.onElementChanged (m : Model) : Model := m

/-- A user edit of a bound field: the two-way binding writes the observable
and the change listener re-validates. -/
def userEdit (m : Model) (k : String) (v : Value) : Model :=
  Model.onElementChanged { m with fields := setKey m.fields k v }

/-- `self.init(autoload)`: merge the construction data through `update`,
activate the fragment tab or the default tab, and trigger a load when asked
to.  Listener and binding wiring touch only the DOM. -/
def Model.init (m : Model) (user_data : List (String × Value)) (autoload : Bool) :
    List AjaxRequest × Model :=
  let m1 := m.update user_data
  let m2 := if m1.hasHash then m1.activateTab m1.getHash else m1.activateDefaultTab
  if autoload then m2.load else ([], m2)

/-- One externally observable transition of the editor: a response handler
firing, a user gesture, or a navigation event. -/
inductive Step : Model → Model → Prop where
  | update (m : Model) (inst : List (String × Value)) : Step m (m.update inst)
  | edit (m : Model) (k : String) (v : Value) : Step m (userEdit m k v)
  | load (m : Model) : Step m m.load.2
  | dataLoaded (m : Model) (r : LoadResult) : Step m (m.onDataLoaded r)
  | save (m : Model) : Step m m.save.2.2
  | dataSaved (m : Model) (r : SaveResult) : Step m (m.onDataSaved r)
  | tabClick (m : Model) (t : String) : Step m (m.activateTab t)
  | hashChange (m : Model) (h : String) : Step m (Model.onHashChange { m with hash := h })

/-- Model states reachable from a freshly initialized editor. -/
inductive Reachable : Model → Prop where
  | init (api csrf h0 : String) (user_data : List (String × Value)) (autoload : Bool) :
      Reachable ((mkModel api csrf h0).init user_data autoload).2
  | step (m m' : Model) : Reachable m → Step m m' → Reachable m'

/-! Helper lemmas about association-list reads and writes. -/

lemma lookupA_cons {α : Type} (kv : String × α) (rest : List (String × α)) (k : String) :
    lookupA (kv :: rest) k = if kv.1 = k then some kv.2 else lookupA rest k := rfl

lemma setKey_cons {α : Type} (kv : String × α) (rest : List (String × α)) (k : String)
    (v : α) :
    setKey (kv :: rest) k v = if kv.1 = k then (k, v) :: rest else kv :: setKey rest k v := rfl

lemma extend_cons {α : Type} (d : List (String × α)) (kv : String × α)
    (rest : List (String × α)) :
    extend d (kv :: rest) = extend (setKey d kv.1 kv.2) rest := rfl

lemma lookupA_setKey_self {α : Type} (l : List (String × α)) (k : String) (v : α) :
    lookupA (setKey l k v) k = some v := by
  induction l with
  | nil => simp [setKey, lookupA]
  | cons kv rest ih =>
    rw [setKey_cons]
    by_cases h : kv.1 = k
    · rw [if_pos h, lookupA_cons, if_pos rfl]
    · rw [if_neg h, lookupA_cons, if_neg h, ih]

lemma lookupA_setKey_ne {α : Type} (l : List (String × α)) (k' k : String) (v : α)
    (h : k' ≠ k) : lookupA (setKey l k' v) k = lookupA l k := by
  induction l with
  | nil => simp [setKey, lookupA, h]
  | cons kv rest ih =>
    rw [setKey_cons]
    by_cases hk : kv.1 = k'
    · rw [if_pos hk, lookupA_cons, lookupA_cons]
      rw [if_neg h, if_neg (by rw [hk]; exact h)]
    · rw [if_neg hk, lookupA_cons, lookupA_cons, ih]

lemma lookupA_eq_none_iff {α : Type} (l : List (String × α)) (k : String) :
    lookupA l k = none ↔ k ∉ l.map Prod.fst := by
  induction l with
  | nil => simp [lookupA]
  | cons kv rest ih =>
    rw [lookupA_cons]
    by_cases h : kv.1 = k
    · simp [h]
    · simp only [List.map_cons, List.mem_cons]
      rw [if_neg h, ih]
      constructor
      · intro hn hc
        rcases hc with hc | hc
        · exact h hc.symm
        · exact hn hc
      · intro hn hc
        exact hn (Or.inr hc)

lemma lookupA_extend_of_none {α : Type} (i : List (String × α)) :
    ∀ d : List (String × α), ∀ k : String, lookupA i k = none →
      lookupA (extend d i) k = lookupA d k := by
  induction i with
  | nil => intro d k _; rfl
  | cons kv rest ih =>
    intro d k h
    rw [lookupA_cons] at h
    by_cases hk : kv.1 = k
    · rw [if_pos hk] at h; exact absurd h (by simp)
    · rw [if_neg hk] at h
      rw [extend_cons, ih _ k h, lookupA_setKey_ne _ _ _ _ hk]

lemma lookupA_extend_of_nodup {α : Type} (i : List (String × α)) :
    ∀ d : List (String × α), ∀ k : String, ∀ v : α,
      (i.map Prod.fst).Nodup → lookupA i k = some v →
      lookupA (extend d i) k = some v := by
  induction i with
  | nil => intro d k v _ h; exact absurd h (by simp [lookupA])
  | cons kv rest ih =>
    intro d k v hn h
    have hn' : (kv.1 :: rest.map Prod.fst).Nodup := by
      rw [List.map_cons] at hn; exact hn
    have hn1 : kv.1 ∉ rest.map Prod.fst := (List.nodup_cons.mp hn').1
    have hn2 : (rest.map Prod.fst).Nodup := (List.nodup_cons.mp hn').2
    rw [lookupA_cons] at h
    by_cases hk : kv.1 = k
    · rw [if_pos hk] at h
      have hv : kv.2 = v := by injection h
      have hrest : lookupA rest k = none := by
        rw [lookupA_eq_none_iff]
        exact hk ▸ hn1
      rw [extend_cons, lookupA_extend_of_none rest _ k hrest, ← hk, ← hv,
        lookupA_setKey_self]
    · rw [if_neg hk] at h
      rw [extend_cons]
      exact ih _ k v hn2 h

lemma mem_keys_setKey {α : Type} (l : List (String × α)) (k : String) (v : α) (a : String)
    (h : a ∈ (setKey l k v).map Prod.fst) : a ∈ l.map Prod.fst ∨ a = k := by
  induction l with
  | nil =>
    right
    simpa [setKey] using h
  | cons kv rest ih =>
    rw [setKey_cons] at h
    by_cases hk : kv.1 = k
    · rw [if_pos hk] at h
      simp only [List.map_cons, List.mem_cons] at h
      rcases h with h | h
      · right; exact h
      · left; simp only [List.map_cons, List.mem_cons]; right; exact h
    · rw [if_neg hk] at h
      simp only [List.map_cons, List.mem_cons] at h
      rcases h with h | h
      · left; simp only [List.map_cons, List.mem_cons]; left; exact h
      · rcases ih h with h2 | h2
        · left; simp only [List.map_cons, List.mem_cons]; right; exact h2
        · right; exact h2

lemma nodup_keys_setKey {α : Type} (l : List (String × α)) (k : String) (v : α)
    (h : (l.map Prod.fst).Nodup) : ((setKey l k v).map Prod.fst).Nodup := by
  induction l with
  | nil => simp [setKey]
  | cons kv rest ih =>
    have h1 : kv.1 ∉ rest.map Prod.fst := (List.nodup_cons.mp (by simpa using h)).1
    have h2 : (rest.map Prod.fst).Nodup := (List.nodup_cons.mp (by simpa using h)).2
    rw [setKey_cons]
    by_cases hk : kv.1 = k
    · rw [if_pos hk]
      simp only [List.map_cons, List.nodup_cons]
      exact ⟨hk ▸ h1, h2⟩
    · rw [if_neg hk]
      simp only [List.map_cons, List.nodup_cons]
      refine ⟨?_, ih h2⟩
      intro hmem
      rcases mem_keys_setKey rest k v kv.1 hmem with hc | hc
      · exact h1 hc
      · exact hk hc

lemma nodup_keys_extend {α : Type} (i : List (String × α)) :
    ∀ d : List (String × α), (d.map Prod.fst).Nodup →
      ((extend d i).map Prod.fst).Nodup := by
  induction i with
  | nil => intro d h; simpa [extend] using h
  | cons kv rest ih =>
    intro d h
    rw [extend_cons]
    exact ih _ (nodup_keys_setKey d kv.1 kv.2 h)

/-! Preservation of the save-outcome flags by the operations that do not
write them; each is definitional. -/

lemma Model.update_saved (m : Model) (i : List (String × Value)) :
    (m.update i).saved = m.saved := rfl

lemma Model.update_save_failed (m : Model) (i : List (String × Value)) :
    (m.update i).save_failed = m.save_failed := rfl

lemma userEdit_saved (m : Model) (k : String) (v : Value) :
    (userEdit m k v).saved = m.saved := rfl

lemma userEdit_save_failed (m : Model) (k : String) (v : Value) :
    (userEdit m k v).save_failed = m.save_failed := rfl

lemma Model.load_saved (m : Model) : m.load.2.saved = m.saved := rfl

lemma Model.load_save_failed (m : Model) : m.load.2.save_failed = m.save_failed := rfl

lemma Model.activateTab_saved (m : Model) (t : String) :
    (m.activateTab t).saved = m.saved := rfl

lemma Model.activateTab_save_failed (m : Model) (t : String) :
    (m.activateTab t).save_failed = m.save_failed := rfl

lemma Model.onDataLoaded_saved (m : Model) (r : LoadResult) :
    (m.onDataLoaded r).saved = m.saved := by
  unfold Model.onDataLoaded
  split <;> rfl

lemma Model.onDataLoaded_save_failed (m : Model) (r : LoadResult) :
    (m.onDataLoaded r).save_failed = m.save_failed := by
  unfold Model.onDataLoaded
  split <;> rfl

lemma Model.save_saved (m : Model) : m.save.2.2.saved = m.saved := by
  unfold Model.save
  split <;> rfl

lemma Model.save_save_failed (m : Model) : m.save.2.2.save_failed = m.save_failed := by
  unfold Model.save
  split <;> rfl

lemma Model.onHashChange_saved (m : Model) : m.onHashChange.saved = m.saved := by
  simp only [Model.onHashChange]
  split <;> rfl

lemma Model.onHashChange_save_failed (m : Model) :
    m.onHashChange.save_failed = m.save_failed := by
  simp only [Model.onHashChange]
  split <;> rfl

lemma Model.init_saved (m : Model) (ud : List (String × Value)) (al : Bool) :
    (m.init ud al).2.saved = m.saved := by
  simp only [Model.init]
  split <;> split <;> rfl

lemma Model.init_save_failed (m : Model) (ud : List (String × Value)) (al : Bool) :
    (m.init ud al).2.save_failed = m.save_failed := by
  simp only [Model.init]
  split <;> split <;> rfl

/-! Concrete model states used by witnesses and counterexamples. -/

/-- A model holding exactly the static defaults.  The empty azure group and
key fields fail the parameterless `uuid` constraint, so the form is
invalid. -/
def invalidModel : Model := (mkModel "/settings" "token" "").update []

/-- A model whose azure UUID fields carry the digit string `1`, which the
`uuid` rule accepts through its legacy integer fallback; every other
constraint passes on the defaults, so the form is valid. -/
def validModel : Model := (mkModel "/settings" "token" "").update
  [("azure_oauth_key", Value.s "1"), ("azure_admin_group", Value.s "1"),
   ("azure_operator_group", Value.s "1"), ("azure_user_group", Value.s "1")]

/-- C1: when the record fails validation, `save` returns `false`, issues no
request and changes no state; when it passes, `save` raises the saving flag
and issues exactly one POST carrying `commit: 1` and the JSON-serialized
record. -/
theorem save_validation_gate (m : Model) :
    (m.valid = false → m.save = (some false, [], m)) ∧
    (m.valid = true →
      m.save = (none,
        [{ url := m.api_url, csrf_token := m.csrf_token, commit := some 1,
           data := some (koToJSON m) }],
        { m with saving := true })) := by
  constructor
  · intro h
    simp [Model.save, h]
  · intro h
    simp [Model.save, h, saveRequest]

/-- Witness for C1 at two concrete states: the default record fails
validation and `save` refuses it without a request; with the azure UUID
fields filled the record passes and `save` issues the single commit POST. -/
theorem save_validation_gate_witness :
    invalidModel.save = (some false, [], invalidModel) ∧
    validModel.save = (none,
      [{ url := validModel.api_url, csrf_token := validModel.csrf_token,
         commit := some 1, data := some (koToJSON validModel) }],
      { validModel with saving := true }) :=
  ⟨(save_validation_gate invalidModel).1 (by decide),
   (save_validation_gate validModel).2 (by decide)⟩

/-- A model in which both exclusive LDAP flags hold the boolean `true`, the
value the bound toggle widgets produce. -/
def bothTrueModel : Model := (mkModel "/settings" "token" "").update
  [("ldap_sg_enabled", Value.b true), ("autoprovisioning", Value.b true)]

/-- C2 counterexample: with both flags boolean `true` each is truthy, yet
`ldap_exclusive` reports valid, because the source compares with `=== 1`
and `true === 1` is false in JavaScript. -/
theorem ldap_exclusive_truthy_cex :
    (getF bothTrueModel "ldap_sg_enabled").truthy = true ∧
    (getF bothTrueModel "autoprovisioning").truthy = true ∧
    ldap_exclusive bothTrueModel = true :=
  ⟨by decide, by decide, by decide⟩

/-- C2 amended: `ldap_exclusive` reports invalid exactly when both flags are
strictly equal to the number `1`; mere truthiness never triggers it.  The
rule is attached to both the `ldap_sg_enabled` and the `autoprovisioning`
field. -/
theorem ldap_exclusive_strict_one (m : Model) :
    (ldap_exclusive m = false ↔
      (getF m "ldap_sg_enabled" = Value.n 1 ∧ getF m "autoprovisioning" = Value.n 1)) ∧
    lookupA staticRules "ldap_sg_enabled" =
      some (RuleVal.obj [("required", RuleParam.pfn ldap_enabled),
        ("ldap_exclusive", RuleParam.pb true)]) ∧
    lookupA staticRules "autoprovisioning" =
      some (RuleVal.obj [("required", RuleParam.pfn ldap_enabled),
        ("ldap_exclusive", RuleParam.pb true)]) := by
  refine ⟨?_, rfl, rfl⟩
  unfold ldap_exclusive Value.eqOne
  by_cases h1 : getF m "ldap_sg_enabled" = Value.n 1 <;>
    by_cases h2 : getF m "autoprovisioning" = Value.n 1 <;>
      simp [h1, h2]

/-- C3: `auth_enabled` fails exactly when all six provider toggles are
falsy, holds when at least one is truthy, and is attached to each of the six
toggle fields in the rule table. -/
theorem auth_enabled_spec (m : Model) :
    (auth_enabled m = false ↔
      ((getF m "local_db_enabled").truthy = false ∧
       (getF m "ldap_enabled").truthy = false ∧
       (getF m "google_oauth_enabled").truthy = false ∧
       (getF m "github_oauth_enabled").truthy = false ∧
       (getF m "azure_oauth_enabled").truthy = false ∧
       (getF m "oidc_oauth_enabled").truthy = false)) ∧
    lookupA staticRules "local_db_enabled" = some (RuleVal.str "auth_enabled") ∧
    lookupA staticRules "ldap_enabled" = some (RuleVal.str "auth_enabled") ∧
    lookupA staticRules "google_oauth_enabled" = some (RuleVal.str "auth_enabled") ∧
    lookupA staticRules "github_oauth_enabled" = some (RuleVal.str "auth_enabled") ∧
    lookupA staticRules "azure_oauth_enabled" = some (RuleVal.str "auth_enabled") ∧
    lookupA staticRules "oidc_oauth_enabled" = some (RuleVal.str "auth_enabled") := by
  refine ⟨?_, rfl, rfl, rfl, rfl, rfl, rfl⟩
  unfold auth_enabled
  cases h1 : (getF m "local_db_enabled").truthy <;>
  cases h2 : (getF m "ldap_enabled").truthy <;>
  cases h3 : (getF m "google_oauth_enabled").truthy <;>
  cases h4 : (getF m "github_oauth_enabled").truthy <;>
  cases h5 : (getF m "azure_oauth_enabled").truthy <;>
  cases h6 : (getF m "oidc_oauth_enabled").truthy <;>
  simp

/-- C5: activating the already active, fully qualified path is a no-op: the
model, in particular the active path and the location fragment, is
unchanged, so the write cannot alter the fragment and no fragment-change
event fires. -/
theorem activateTab_idempotent (m : Model) (p : String)
    (h1 : m.tab_active = p) (h2 : m.hash = p) (h3 : expandTab m.tabs p = p) :
    m.activateTab p = m ∧ (m.activateTab p).hash = m.hash := by
  subst h1
  have he : m.activateTab m.tab_active =
      { m with tab_active := m.tab_active, hash := m.tab_active } := by
    simp only [Model.activateTab, h3]
  constructor
  · rw [he]
    nth_rewrite 2 [← h2]
    rfl
  · rw [he]
    exact h2.symm

/-- A model currently resting on the `powerdns` tab, with the fragment in
sync. -/
def idleModel : Model := { mkModel "/settings" "token" "powerdns" with tab_active := "powerdns" }

/-- Witness for C5: re-activating the active `powerdns` path leaves the
model and fragment untouched. -/
theorem activateTab_idempotent_witness :
    idleModel.activateTab "powerdns" = idleModel ∧
    (idleModel.activateTab "powerdns").hash = idleModel.hash :=
  activateTab_idempotent idleModel "powerdns" rfl rfl (by decide)

/-- C7: activating the bare parent `authentication` expands to its default
child `authentication/local`, while the qualified `authentication/ldap` is
activated unchanged. -/
theorem activateTab_default_child (m : Model) (h : m.tabs = tabsList) :
    (m.activateTab "authentication").tab_active = "authentication/local" ∧
    (m.activateTab "authentication/ldap").tab_active = "authentication/ldap" := by
  constructor
  · show expandTab m.tabs "authentication" = "authentication/local"
    rw [h]
    decide
  · show expandTab m.tabs "authentication/ldap" = "authentication/ldap"
    rw [h]
    decide

/-- Witness for C7 on a freshly constructed model, whose tab list is the
source tab list. -/
theorem activateTab_default_child_witness :
    ((mkModel "/settings" "token" "").activateTab "authentication").tab_active
        = "authentication/local" ∧
    ((mkModel "/settings" "token" "").activateTab "authentication/ldap").tab_active
        = "authentication/ldap" :=
  activateTab_default_child (mkModel "/settings" "token" "") rfl

/-- C8: the `uuid` rule accepts a well-formed version-1 UUID and the bare
integer string `42`, and rejects `not-a-uuid`. -/
theorem uuid_rule_cases :
    uuid "123e4567-e89b-12d3-a456-426614174000" = true ∧
    uuid "42" = true ∧
    uuid "not-a-uuid" = false :=
  ⟨by decide, by decide, by decide⟩

/-- The model state right after a successful save response on a fresh
editor. -/
def savedModel : Model :=
  (mkModel "/settings" "token" "").onDataSaved { status := 1, messages := [], data := [] }

/-- C4 counterexample: after a successful save the `saved` flag is set, and
a user edit of the `ldap_uri` field leaves it set; no edit path in the
source clears the saved or save-failed display flag. -/
theorem saved_flag_persists_cex :
    savedModel.saved = true ∧
    (userEdit savedModel "ldap_uri" (Value.s "ldap://x")).saved = true :=
  ⟨by decide, by decide⟩

/-- C4 amended: per save attempt the flags move from Idle through Saving to
Saved or SaveFailed: a passing save raises `saving`, the response clears it
and sets exactly the flag matching the status.  A subsequent user edit
leaves the saved and save-failed flags unchanged while still writing the
edited field, so the form stays editable throughout but the display state is
reset only by the next save response, not by the next edit. -/
theorem save_state_machine_amended (m : Model) (r : SaveResult) (k : String) (v : Value) :
    m.save.2.2.saving = (m.valid || m.saving) ∧
    (m.onDataSaved r).saving = false ∧
    (m.onDataSaved r).saved = !(decide (r.status = 0)) ∧
    (m.onDataSaved r).save_failed = decide (r.status = 0) ∧
    (userEdit m k v).saved = m.saved ∧
    (userEdit m k v).save_failed = m.save_failed ∧
    getF (userEdit m k v) k = v := by
  refine ⟨?_, ?_, ?_, ?_, rfl, rfl, ?_⟩
  · cases h : m.valid <;> simp [Model.save, h]
  · unfold Model.onDataSaved
    split <;> rfl
  · unfold Model.onDataSaved
    by_cases h : r.status = 0 <;> simp [h]
  · unfold Model.onDataSaved
    by_cases h : r.status = 0 <;> simp [h]
  · show (lookupA (setKey m.fields k v) k).getD (Value.s "") = v
    rw [lookupA_setKey_self]
    rfl

/-- A failing load response. -/
def loadFailResult : LoadResult :=
  { status := 0, messages := ["err"], payload := ⟨[], Json.obj []⟩ }

/-- A successful load response with an empty payload. -/
def loadOkResult : LoadResult :=
  { status := 1, messages := [], payload := ⟨[], Json.obj []⟩ }

/-- C6: a load response with status zero stores the server messages under
the danger class and clears the loading flag while leaving every field
observable unchanged; any non-zero status takes the success branch, which
merges the legacy payload and stores the messages under the info class. -/
theorem onDataLoaded_spec (m : Model) (r : LoadResult) :
    (r.status = 0 →
      (m.onDataLoaded r).fields = m.fields ∧
      (∀ k, getF (m.onDataLoaded r) k = getF m k) ∧
      (m.onDataLoaded r).messages = r.messages ∧
      (m.onDataLoaded r).messages_class = "danger" ∧
      (m.onDataLoaded r).loading = false) ∧
    (r.status ≠ 0 →
      m.onDataLoaded r =
        { m.update r.payload.legacy with
            settings := observe r.payload.settings
            messages_class := "info"
            messages := r.messages
            loading := false }) := by
  constructor
  · intro h
    refine ⟨?_, ?_, ?_, ?_, ?_⟩ <;> simp [Model.onDataLoaded, h, getF]
  · intro h
    simp [Model.onDataLoaded, h]

/-- Witness for C6 on a fresh model: a status-zero response leaves the
fields untouched, and a status-one response is handled by the success
branch. -/
theorem onDataLoaded_spec_witness :
    ((mkModel "/settings" "token" "").onDataLoaded loadFailResult).fields
        = (mkModel "/settings" "token" "").fields ∧
    (mkModel "/settings" "token" "").onDataLoaded loadOkResult =
      { (mkModel "/settings" "token" "").update loadOkResult.payload.legacy with
          settings := observe loadOkResult.payload.settings
          messages_class := "info"
          messages := loadOkResult.messages
          loading := false } :=
  ⟨((onDataLoaded_spec (mkModel "/settings" "token" "") loadFailResult).1 rfl).1,
   (onDataLoaded_spec (mkModel "/settings" "token" "") loadOkResult).2 (by decide)⟩

/-- C9: in every reachable editor state the saved and save-failed flags are
never both set: they start false, every branch of the save response handler
sets exactly one of them, and no other operation writes them. -/
theorem saved_save_failed_exclusive (m : Model) (h : Reachable m) :
    (m.saved && m.save_failed) = false := by
  induction h with
  | init api csrf h0 ud al =>
    rw [Model.init_saved, Model.init_save_failed]
    rfl
  | step m m' hr hs ih =>
    cases hs with
    | update inst =>
      rw [Model.update_saved, Model.update_save_failed]
      exact ih
    | edit k v =>
      rw [userEdit_saved, userEdit_save_failed]
      exact ih
    | load =>
      rw [Model.load_saved, Model.load_save_failed]
      exact ih
    | dataLoaded r =>
      rw [Model.onDataLoaded_saved, Model.onDataLoaded_save_failed]
      exact ih
    | save =>
      rw [Model.save_saved, Model.save_save_failed]
      exact ih
    | dataSaved r =>
      unfold Model.onDataSaved
      split <;> rfl
    | tabClick t =>
      rw [Model.activateTab_saved, Model.activateTab_save_failed]
      exact ih
    | hashChange h =>
      rw [Model.onHashChange_saved, Model.onHashChange_save_failed]
      exact ih

/-- Witness for C9 at the freshly initialized editor. -/
theorem saved_save_failed_exclusive_witness :
    (((mkModel "/settings" "token" "").init [] false).2.saved &&
     ((mkModel "/settings" "token" "").init [] false).2.save_failed) = false :=
  saved_save_failed_exclusive _ (Reachable.init "/settings" "token" "" [] false)

/-- C10: `update` merges its argument into the shared defaults table in
place, so a key written by an earlier update keeps its most recently applied
value through a later update that omits the key: both the defaults table and
the field observable still carry the earlier value rather than the original
static default. -/
theorem update_defaults_persistence (m : Model) (i1 i2 : List (String × Value))
    (k : String) (v : Value)
    (hd : (m.defaultsTable.map Prod.fst).Nodup)
    (h1 : (i1.map Prod.fst).Nodup)
    (hk : lookupA i1 k = some v)
    (h2 : lookupA i2 k = none) :
    (m.update i1).defaultsTable = extend m.defaultsTable i1 ∧
    lookupA ((m.update i1).update i2).defaultsTable k = some v ∧
    lookupA ((m.update i1).update i2).fields k = some v := by
  have hd1 : lookupA (extend m.defaultsTable i1) k = some v :=
    lookupA_extend_of_nodup i1 m.defaultsTable k v h1 hk
  have hn1 : ((extend m.defaultsTable i1).map Prod.fst).Nodup :=
    nodup_keys_extend i1 m.defaultsTable hd
  have hd2 : lookupA (extend (extend m.defaultsTable i1) i2) k = some v := by
    rw [lookupA_extend_of_none i2 _ k h2]
    exact hd1
  have hn2 : ((extend (extend m.defaultsTable i1) i2).map Prod.fst).Nodup :=
    nodup_keys_extend i2 _ hn1
  refine ⟨rfl, hd2, ?_⟩
  show lookupA
      (extend (m.update i1).fields (extend (extend m.defaultsTable i1) i2)) k = some v
  exact lookupA_extend_of_nodup (extend (extend m.defaultsTable i1) i2)
    (m.update i1).fields k v hn2 hd2

/-- Witness for C10: the value `5` written to `purge` by a first update
survives a second update that omits the key, instead of resetting to the
static default `0`. -/
theorem update_defaults_persistence_witness :
    lookupA (((mkModel "/settings" "token" "").update [("purge", Value.n 5)]).update
        [("ldap_uri", Value.s "x")]).fields "purge" = some (Value.n 5) :=
  (update_defaults_persistence (mkModel "/settings" "token" "") [("purge", Value.n 5)]
    [("ldap_uri", Value.s "x")] "purge" (Value.n 5) (by decide) (by decide) rfl rfl).2.2
